import Mathlib

/-
  Verification development for the lltcg card scraper.

  The Python sources `src/scrape/scrape.py` and `src/main.py` are embedded
  shallowly: HTML documents become a tree datatype, BeautifulSoup queries
  become traversals of that tree, Python `dict`s become ordered association
  lists with insert-or-overwrite update, fallible code returns `Except`
  (a raised exception) or `Option` (an absent value), and the `while True`
  pagination loop becomes fuel-indexed recursion (theorems always supply
  enough fuel).
-/

namespace LLTCG

/-! ### Model of Python `str.strip` -/

/-- Characters stripped by Python `str.strip()` (whitespace). -/
def isPySpace (c : Char) : Bool := c.isWhitespace

/-- Strip leading and trailing whitespace from a list of characters. -/
def stripChars (l : List Char) : List Char :=
  ((l.dropWhile isPySpace).reverse.dropWhile isPySpace).reverse

/-- Model of Python `str.strip()`. -/
def pyStrip (s : String) : String := String.mk (stripChars s.data)

/-! ### Model of HTML documents and the BeautifulSoup operations used -/

/-- An HTML node as BeautifulSoup presents it: a tag with a name, plain
attributes, a (multi-valued) class attribute and children, or a text node
(`NavigableString`). A document is a forest `List Node`. -/
inductive Node where
  | tag (name : String) (attrs : List (String × String)) (classes : List String)
      (children : List Node)
  | text (s : String)

mutual
/-- All nodes strictly below `n`, in document (pre)order: `Tag.descendants`. -/
def descendantsN : Node → List Node
  | .text _ => []
  | .tag _ _ _ ch => descendantsL ch

/-- All nodes of a forest and their descendants, in document order
(`soup.descendants` for a whole document). -/
def descendantsL : List Node → List Node
  | [] => []
  | n :: rest => n :: descendantsN n ++ descendantsL rest
end

def isTagNamed (name : String) : Node → Bool
  | .tag nm _ _ _ => nm = name
  | .text _ => false

def hasClass (c : String) : Node → Bool
  | .tag _ _ cls _ => cls.contains c
  | .text _ => false

/-- `tag.get(key)` for a non-class attribute / `tag[key]` lookup. -/
def getAttr : Node → String → Option String
  | .tag _ attrs _ _, k => (attrs.find? (fun p => p.1 = k)).map (fun p => p.2)
  | .text _, _ => none

def classesOf : Node → List String
  | .tag _ _ cls _ => cls
  | .text _ => []

def childrenOf : Node → List Node
  | .tag _ _ _ ch => ch
  | .text _ => []

/-- The raw descendant strings of a node, in order (`tag.strings`). -/
def nodeStrings (n : Node) : List String :=
  (descendantsN n).filterMap fun m =>
    match m with
    | .text s => some s
    | .tag _ _ _ _ => none

/-- `tag.get_text()` / `tag.text`: concatenation of all descendant strings. -/
def nodeText (n : Node) : String := String.join (nodeStrings n)

/-- `tag.get_text(strip=True)`: each descendant string stripped, empties
contributing nothing, concatenated. -/
def get_text_strip (n : Node) : String := String.join ((nodeStrings n).map pyStrip)

/-- `tag.find(name)`: first descendant tag with the given name. -/
def findTag (name : String) (n : Node) : Option Node :=
  (descendantsN n).find? (isTagNamed name)

/-- `tag.find_all(name)`: all descendant tags with the given name. -/
def find_all_tag (name : String) (n : Node) : List Node :=
  (descendantsN n).filter (isTagNamed name)

/-- `tag.find(name, attr=value)`: first descendant tag with the given name
whose attribute equals the value. -/
def findTagWithAttr (name attrKey attrVal : String) (n : Node) : Option Node :=
  (descendantsN n).find? fun m =>
    isTagNamed name m && (getAttr m attrKey == some attrVal)

/-- `tag.select(".c")`: descendant elements carrying class `c`, document order. -/
def selectClass (c : String) (n : Node) : List Node :=
  (descendantsN n).filter (hasClass c)

/-- `tag.select_one(".c")`. -/
def selectOneClassIn (c : String) (n : Node) : Option Node :=
  (selectClass c n).head?

/-- `soup.select_one(".c")` over a whole document. -/
def select_one_class (c : String) (doc : List Node) : Option Node :=
  ((descendantsL doc).filter (hasClass c)).head?

/-- Python `needle in hay` on strings (substring test). -/
def strContains (hay needle : String) : Bool :=
  hay.data.tails.any (fun t => needle.data.isPrefixOf t)

mutual
/-- Search for the first `img` element that lies strictly inside an element
carrying class `c` (models `tag.select_one(".c img")`, scoped to the subtree). -/
def imgUnder (c : String) : Bool → Node → Option Node
  | _, .text _ => none
  | inside, .tag nm attrs cls ch =>
    if inside && nm = "img" then some (.tag nm attrs cls ch)
    else imgUnderL c (inside || cls.contains c) ch

def imgUnderL (c : String) : Bool → List Node → Option Node
  | _, [] => none
  | inside, n :: rest =>
    match imgUnder c inside n with
    | some m => some m
    | none => imgUnderL c inside rest
end

/-! ### Python `dict` as an ordered association list -/

/-- Python `d[k] = v`: overwrite in place if the key exists (keys of a
Python dict are unique, so replacing the first occurrence suffices), else
append at the end. -/
def pyDictSet {V : Type} : List (String × V) → String → V → List (String × V)
  | [], k, v => [(k, v)]
  | p :: rest, k, v =>
    if p.1 = k then (k, v) :: rest else p :: pyDictSet rest k v

/-- Python `d[k]` lookup / `k in d` support. -/
def pyDictGet {V : Type} : List (String × V) → String → Option V
  | [], _ => none
  | p :: rest, k => if p.1 = k then some p.2 else pyDictGet rest k

/-- Python `old.update(new)`. -/
def pyDictUpdate {V : Type} (old new : List (String × V)) : List (String × V) :=
  new.foldl (fun m p => pyDictSet m p.1 p.2) old

/-! ### Embedding of `src/scrape/scrape.py` -/

/-- A value stored in a card record: a plain string, a list of strings
(`group`, `info_text`), or a heart mapping. -/
inductive FieldValue where
  | str (s : String)
  | strs (l : List String)
  | dict (m : List (String × String))
deriving DecidableEq, Repr

/-- A card record: the Python dict built by `_parse_card_details`. -/
abbrev CardData := List (String × FieldValue)

def lookupCD (cd : CardData) (k : String) : Option FieldValue := pyDictGet cd k

/-- An exception escaping modelled code. -/
inductive PyError where
  | httpStatusError (status : Nat)
  | typeError
  | keyError
deriving DecidableEq, Repr

/-- `CATEGORY_TRANSLATIONS` from `scrape.py`. -/
def CATEGORY_TRANSLATIONS : List (String × String) :=
  [("収録商品", "set"),
   ("カードタイプ", "card_type"),
   ("作品名", "group"),
   ("参加ユニット", "unit"),
   ("コスト", "cost"),
   ("基本ハート", "hearts"),
   ("ブレードハート", "blade_hearts"),
   ("ブレード", "blades"),
   ("レアリティ", "rarity"),
   ("カード番号", "card_number"),
   ("スコア", "score"),
   ("必要ハート", "required_hearts"),
   ("特殊ハート", "special_hearts")]

/-- `if key in CATEGORY_TRANSLATIONS: key = CATEGORY_TRANSLATIONS[key]`. -/
def translateKey (k : String) : String :=
  match pyDictGet CATEGORY_TRANSLATIONS k with
  | some v => v
  | none => k

def BASE_URL : String := "https://llofficial-cardgame.com/"

/-- Shallow model of `urllib.parse.urljoin`: an absolute reference wins,
otherwise the reference is resolved against the base. Only the `img_url`
field uses this; no verified property depends on its exact value. -/
def urljoin (base rel : String) : String :=
  if strContains rel "://" then rel else base ++ rel

/-! #### Network fetches -/

/-- The outcome of one HTTP request as the modelled code observes it: either
the client raised `httpx.RequestError` (a transport failure), or a response
arrived with a status code and a body. The body is modelled by its parsed
node forest; an empty (falsy) `response.text` is the empty forest. -/
inductive FetchOutcome where
  | requestError
  | response (status : Nat) (body : List Node)

/-- `httpx` `response.is_success`, the condition under which
`raise_for_status()` does not raise. -/
def isSuccessStatus (status : Nat) : Bool := 200 ≤ status && status < 300

/-- `_fetch_search_results_page`: 404 is the end-of-pagination marker and
yields `None`; `raise_for_status()` raises `httpx.HTTPStatusError` for any
other non-2xx status (not caught by `except httpx.RequestError`); a
transport error is caught, logged and yields `None`. -/
def fetch_search_results_page (out : FetchOutcome) : Except PyError (Option (List Node)) :=
  match out with
  | .requestError => .ok none
  | .response status body =>
    if status = 404 then .ok none
    else if isSuccessStatus status then .ok (some body)
    else .error (.httpStatusError status)

/-- `_fetch_card_details_page`: `raise_for_status()` raises for any non-2xx
status (404 included — there is no 404 check here); an empty body yields
`None`; a transport error is caught and yields `None`. -/
def fetch_card_details_page (out : FetchOutcome) : Except PyError (Option (List Node)) :=
  match out with
  | .requestError => .ok none
  | .response status body =>
    if isSuccessStatus status then
      if body.isEmpty then .ok none else .ok (some body)
    else .error (.httpStatusError status)

/-! #### Search-result parsing and pagination -/

/-- `_parse_card_numbers_from_html`: select the result items, read each
item's stripped `card` attribute, keep the non-blank ones. -/
def parse_card_numbers_from_html (doc : List Node) : List String :=
  ((descendantsL doc).filter fun n =>
    hasClass "ex-item" n && hasClass "cardlist-Result_Item" n &&
      hasClass "image-Item" n).filterMap fun div =>
    if pyStrip ((getAttr div "card").getD "") ≠ "" then
      some (pyStrip ((getAttr div "card").getD ""))
    else none

/-- Result of a pagination run: the accumulated card numbers and the page
numbers for which a request was issued. -/
structure PaginationRun where
  cards : List String
  requested : List Nat
deriving DecidableEq, Repr

/-- The `while True` loop of `get_card_numbers_from_expansion`, as
fuel-indexed recursion. `fetch page` is the outcome of the request for that
page. Fuel exhaustion cuts the loop short; every theorem supplies enough
fuel for the run it describes. An uncaught `HTTPStatusError` from the fetch
propagates out of the loop. -/
def paginate (fetch : Nat → FetchOutcome) :
    Nat → Nat → List String → List Nat → Except PyError PaginationRun
  | 0, _, acc, reqs => .ok ⟨acc, reqs.reverse⟩
  | fuel + 1, page, acc, reqs =>
    match fetch_search_results_page (fetch page) with
    | .error e => .error e
    | .ok none => .ok ⟨acc, (page :: reqs).reverse⟩
    | .ok (some body) =>
      if body.isEmpty then .ok ⟨acc, (page :: reqs).reverse⟩
      else
        let nums := parse_card_numbers_from_html body
        if nums.isEmpty then .ok ⟨acc, (page :: reqs).reverse⟩
        else paginate fetch fuel (page + 1) (acc ++ nums) (page :: reqs)

/-- `get_card_numbers_from_expansion`: start at page 1 with an empty
accumulator. -/
def get_card_numbers_from_expansion (fetch : Nat → FetchOutcome) (fuel : Nat) :
    Except PyError PaginationRun :=
  paginate fetch fuel 1 [] []

/-! #### `parse_info_text` -/

def joinSpace (tokens : List String) : String := String.intercalate " " tokens

/-- One step of the `parse_info_text` descendant loop. State:
`(lines, current_line, prev_br)`. -/
def info_text_step (st : List String × List String × Bool) (content : Node) :
    List String × List String × Bool :=
  let lines := st.1
  let current := st.2.1
  let prev_br := st.2.2
  match content with
  | .text s =>
    let t := pyStrip s
    if t ≠ "" then (lines, current ++ [t], false) else (lines, current, prev_br)
  | .tag nm attrs cls ch =>
    if nm = "img" then
      let flushed : List String × List String :=
        if prev_br then (lines ++ [joinSpace current], []) else (lines, current)
      let alt := pyStrip ((getAttr (.tag nm attrs cls ch) "alt").getD "")
      (flushed.1, if alt ≠ "" then flushed.2 ++ [alt] else flushed.2, false)
    else if nm = "br" then
      (lines, current, if current.isEmpty then prev_br else true)
    else (lines, current, prev_br)

/-- `parse_info_text`. -/
def parse_info_text (info_text_tag : Node) : List String :=
  let st := (descendantsN info_text_tag).foldl info_text_step ([], [], false)
  let lines := if st.2.1.isEmpty then st.1 else st.1 ++ [joinSpace st.2.1]
  (lines.map pyStrip).filter (fun line => line ≠ "")

/-! #### `_parse_card_details` -/

/-- First class token of a span containing the substring `"heart"`:
`next((cls for cls in span.get("class", []) if "heart" in cls), None)`. -/
def firstHeartClass (span : Node) : Option String :=
  (classesOf span).find? (fun cls => strContains cls "heart")

/-- The `for span in spans` loop building the heart mapping: an empty
stripped text means the value `"1"`. -/
def heart_values_loop : List Node → List (String × String) → List (String × String)
  | [], values => values
  | span :: rest, values =>
    match firstHeartClass span with
    | none => heart_values_loop rest values
    | some class_name =>
      let text := get_text_strip span
      heart_values_loop rest
        (pyDictSet values class_name (if text = "" then "1" else text))

/-- The `required_hearts` / `hearts` / `blade_hearts` branch of
`_parse_card_details`: if the definition has span sub-elements, store the
heart mapping built from them; otherwise only the key `blade_hearts` with an
`ALL1` icon stores `{"ALL1": "1"}`. -/
def heart_field_update (key : String) (dd : Node) (cd : CardData) : CardData :=
  let spans := find_all_tag "span" dd
  if spans.isEmpty then
    if key = "blade_hearts" && (findTagWithAttr "img" "alt" "ALL1" dd).isSome then
      pyDictSet cd key (.dict [("ALL1", "1")])
    else cd
  else pyDictSet cd key (.dict (heart_values_loop spans []))

/-- The `special_hearts` branch: use the stripped text if non-empty,
otherwise `dd.find("img")["alt"][:-1]` — which raises `TypeError` when there
is no img, and `KeyError` when the img has no `alt` attribute. -/
def special_hearts_update (key : String) (dd : Node) (cd : CardData) :
    Except PyError CardData :=
  if pyStrip (nodeText dd) ≠ "" then
    .ok (pyDictSet cd key (.str (pyStrip (nodeText dd))))
  else
    match findTag "img" dd with
    | none => .error .typeError
    | some img =>
      match getAttr img "alt" with
      | none => .error .keyError
      | some alt => .ok (pyDictSet cd key (.str (alt.dropRight 1)))

/-- The body of the `for dl_item in info_detail.select(".dl-Item")` loop. -/
def process_dl_item (cd : CardData) (item : Node) : Except PyError CardData :=
  match findTag "dt" item, findTag "dd" item with
  | some dt, some dd =>
    let key := translateKey (get_text_strip dt)
    if key = "required_hearts" || key = "hearts" || key = "blade_hearts" then
      .ok (heart_field_update key dd cd)
    else if key = "special_hearts" then
      special_hearts_update key dd cd
    else if key = "group" then
      .ok (pyDictSet cd key (.strs (nodeStrings dd)))
    else
      .ok (pyDictSet cd key (.str (get_text_strip dd)))
  | _, _ => .ok cd

def process_dl_items (cd : CardData) : List Node → Except PyError CardData
  | [] => .ok cd
  | item :: rest =>
    match process_dl_item cd item with
    | .error e => .error e
    | .ok cd2 => process_dl_items cd2 rest

/-- The image-URL extraction step of `_parse_card_details`: first img inside
an `.info-Image` element, taken when it has a `src` attribute. -/
def details_img_step (container : Node) (cd : CardData) : CardData :=
  match imgUnderL "info-Image" (hasClass "info-Image" container)
      (childrenOf container) with
  | some img =>
    match getAttr img "src" with
    | some src => pyDictSet cd "img_url" (.str (urljoin BASE_URL src))
    | none => cd
  | none => cd

/-- The name extraction step: `find("p", class_="info-Heading")`. -/
def details_name_step (container : Node) (cd : CardData) : CardData :=
  match (descendantsN container).find?
      (fun m => isTagNamed "p" m && hasClass "info-Heading" m) with
  | some member_tag => pyDictSet cd "name" (.str (pyStrip (nodeText member_tag)))
  | none => cd

/-- The attribute-list step: iterate the `.dl-Item` children of
`.info-Detail`, when that container exists. -/
def details_dl_step (container : Node) (cd : CardData) : Except PyError CardData :=
  match selectOneClassIn "info-Detail" container with
  | some info_detail => process_dl_items cd (selectClass "dl-Item" info_detail)
  | none => .ok cd

/-- The ability-text step: run `parse_info_text` on `.info-Text` if present. -/
def details_text_step (container : Node) (cd : CardData) : CardData :=
  match selectOneClassIn "info-Text" container with
  | some info_text_tag =>
    pyDictSet cd "info_text" (.strs (parse_info_text info_text_tag))
  | none => cd

/-- The final consistency step of `_parse_card_details`:
`if "card_number" not in card_data: card_data["card_number"] = card_number`. -/
def details_final_step (card_number : String) (cd : CardData) : CardData :=
  if cd.any (fun p => p.1 = "card_number") then cd
  else pyDictSet cd "card_number" (.str card_number)

/-- `_parse_card_details`. Returns `.ok none` when the info container is
missing, `.error` when the Python code would raise. The record starts as
`{"card_number": card_number}` and the steps above run in source order. -/
def parse_card_details (doc : List Node) (card_number : String) :
    Except PyError (Option CardData) :=
  match select_one_class "cardlist-Info" doc with
  | none => .ok none
  | some container =>
    match details_dl_step container
        (details_name_step container
          (details_img_step container [("card_number", .str card_number)])) with
    | .error e => .error e
    | .ok cd3 =>
      .ok (some (details_final_step card_number (details_text_step container cd3)))

/-- The `.dl-Item` elements a given info container yields. -/
def container_dl_items (container : Node) : List Node :=
  match selectOneClassIn "info-Detail" container with
  | none => []
  | some info_detail => selectClass "dl-Item" info_detail

/-- The `.dl-Item` elements whose term/definition pairs `_parse_card_details`
iterates over for a given document. -/
def dl_items_of (doc : List Node) : List Node :=
  match select_one_class "cardlist-Info" doc with
  | none => []
  | some container => container_dl_items container

/-- The translated field key a `.dl-Item` dispatches on (when it has both a
`dt` and a `dd`). -/
def item_key (item : Node) : Option String :=
  match findTag "dt" item, findTag "dd" item with
  | some dt, some _ => some (translateKey (get_text_strip dt))
  | _, _ => none

/-! ### Embedding of the merge/overwrite logic of `src/main.py` -/

/-- What reading and JSON-decoding the existing output file can produce. -/
inductive PriorFile (V : Type) where
  | missing
  | unparsable
  | nonDict
  | dict (d : List (String × V))

/-- The data-merging block of `main`: on the merge directive a prior
mapping is updated with the newly scraped map; a missing, unparsable or
non-mapping prior file, or any other directive, yields the newly scraped
map alone. -/
def final_data_map {V : Type} (file_action : String) (prior : PriorFile V)
    (newly_scraped : List (String × V)) : List (String × V) :=
  if file_action = "merge" then
    match prior with
    | .missing => newly_scraped
    | .unparsable => newly_scraped
    | .nonDict => newly_scraped
    | .dict existing => pyDictUpdate existing newly_scraped
  else newly_scraped

/-! ### Concrete documents and request oracles used as claim inputs -/

/-- A search-results page whose result items carry the given card numbers:
each is a `div` with the three result-item classes and a `card` attribute. -/
def search_results_page (ids : List String) : List Node :=
  ids.map fun i =>
    Node.tag "div" [("card", i)] ["ex-item", "cardlist-Result_Item", "image-Item"] []

/-- Search oracle: page 1 and page 2 carry the given card numbers, every
later page answers HTTP 404. -/
def c5_fetch (ids1 ids2 : List String) : Nat → FetchOutcome := fun page =>
  if page = 1 then .response 200 (search_results_page ids1)
  else if page = 2 then .response 200 (search_results_page ids2)
  else .response 404 []

/-- Search oracle: pages below `n` succeed with the given bodies, the
page-`n` request (and any later one) fails with `httpx.RequestError`. -/
def fetch_transport_error_at (bodies : Nat → List Node) (n : Nat) :
    Nat → FetchOutcome :=
  fun p => if p < n then .response 200 (bodies p) else .requestError

/-- Search oracle: pages below `n` succeed with the given bodies, the
pagination then ends normally with HTTP 404 at page `n`. -/
def fetch_end_404_at (bodies : Nat → List Node) (n : Nat) : Nat → FetchOutcome :=
  fun p => if p < n then .response 200 (bodies p) else .response 404 []

/-- A detail page whose attribute list carries a card-number row with the
value `LL-doc-777`, different from any identifier passed in. -/
def c1CexDoc : List Node :=
  [.tag "div" [] ["cardlist-Info"]
    [.tag "div" [] ["info-Detail"]
      [.tag "dl" [] ["dl-Item"]
        [.tag "dt" [] [] [.text "カード番号"],
         .tag "dd" [] [] [.text "LL-doc-777"]]]]]

/-- A detail page whose only attribute row is a set label; it has no
card-number row. -/
def c1WitnessDoc : List Node :=
  [.tag "div" [] ["cardlist-Info"]
    [.tag "div" [] ["info-Detail"]
      [.tag "dl" [] ["dl-Item"]
        [.tag "dt" [] [] [.text "収録商品"],
         .tag "dd" [] [] [.text "スタートデッキ"]]]]]

/-- A `required_hearts` definition element with no span sub-elements but an
ALL-hearts icon. -/
def c3Dd : Node := .tag "dd" [] [] [.tag "img" [("alt", "ALL1")] [] []]

/-- A detail page whose `必要ハート` (required_hearts) row is `c3Dd`. -/
def c3Doc : List Node :=
  [.tag "div" [] ["cardlist-Info"]
    [.tag "div" [] ["info-Detail"]
      [.tag "dl" [] ["dl-Item"]
        [.tag "dt" [] [] [.text "必要ハート"], c3Dd]]]]

/-- A detail page whose `特殊ハート` (special_hearts) definition has
whitespace-only text and contains no icon element. -/
def c4Doc : List Node :=
  [.tag "div" [] ["cardlist-Info"]
    [.tag "div" [] ["info-Detail"]
      [.tag "dl" [] ["dl-Item"]
        [.tag "dt" [] [] [.text "特殊ハート"],
         .tag "dd" [] [] [.text "  "]]]]]

/-- A heart-category span with empty visible text. -/
def c6Span : Node := .tag "span" [] ["heart01"] [.text " "]

/-- A `special_hearts` definition with empty text and an icon whose
alternate text carries a trailing type suffix. -/
def c7Dd : Node := .tag "dd" [] [] [.text " ", .tag "img" [("alt", "ドロー1")] [] []]

/-- An ability-text block mixing text, a line break and an icon. -/
def c8Tag : Node :=
  .tag "div" [] ["info-Text"]
    [.text "ability line one ", .tag "br" [] [] [],
     .tag "img" [("alt", " icon ")] [] [], .text "rest", .tag "br" [] [] []]

/-- Twenty card numbers, as found on a full search-results page. -/
def c5Ids1 : List String :=
  ["LL-e1-001", "LL-e1-002", "LL-e1-003", "LL-e1-004", "LL-e1-005",
   "LL-e1-006", "LL-e1-007", "LL-e1-008", "LL-e1-009", "LL-e1-010",
   "LL-e1-011", "LL-e1-012", "LL-e1-013", "LL-e1-014", "LL-e1-015",
   "LL-e1-016", "LL-e1-017", "LL-e1-018", "LL-e1-019", "LL-e1-020"]

/-- Five card numbers, as found on a final partial search-results page. -/
def c5Ids2 : List String :=
  ["LL-e1-021", "LL-e1-022", "LL-e1-023", "LL-e1-024", "LL-e1-025"]

/-! ### Lemmas about `pyStrip` -/

theorem head?_dropWhile_false (p : Char → Bool) (l : List Char) :
    ∀ x, ((l.dropWhile p).head? = some x) → p x = false := by
  induction l with
  | nil => intro x h; simp [List.dropWhile] at h
  | cons a t ih =>
    intro x h
    by_cases hp : p a
    · rw [List.dropWhile_cons, if_pos hp] at h
      exact ih x h
    · rw [List.dropWhile_cons, if_neg hp] at h
      simp at h
      rw [← h]
      exact Bool.of_not_eq_true hp

theorem dropWhile_eq_self_of_head (p : Char → Bool) (l : List Char)
    (h : ∀ x, l.head? = some x → p x = false) : l.dropWhile p = l := by
  cases l with
  | nil => simp
  | cons a t =>
    rw [List.dropWhile_cons, if_neg]
    simp [h a rfl]

theorem stripChars_idem (l : List Char) :
    stripChars (stripChars l) = stripChars l := by
  unfold stripChars
  have ha : ∀ x, ((l.dropWhile isPySpace).head? = some x) → isPySpace x = false :=
    head?_dropWhile_false isPySpace l
  set a := l.dropWhile isPySpace with hadef
  set c := a.reverse.dropWhile isPySpace with hcdef
  have hcHead : ∀ x, (c.head? = some x) → isPySpace x = false := by
    rw [hcdef]; exact head?_dropWhile_false isPySpace a.reverse
  have hpre : a = c.reverse ++ (a.reverse.takeWhile isPySpace).reverse := by
    conv_lhs => rw [← List.reverse_reverse a,
      ← List.takeWhile_append_dropWhile (p := isPySpace) (l := a.reverse)]
    rw [List.reverse_append, hcdef]
  have h1 : c.reverse.dropWhile isPySpace = c.reverse := by
    apply dropWhile_eq_self_of_head
    intro x hx
    apply ha x
    rw [hpre]
    cases hrev : c.reverse with
    | nil => rw [hrev] at hx; simp at hx
    | cons y ys =>
      rw [hrev] at hx
      simp at hx
      simp [hx]
  rw [h1, List.reverse_reverse]
  have h2 : c.dropWhile isPySpace = c := by
    apply dropWhile_eq_self_of_head
    exact hcHead
  rw [h2]

theorem pyStrip_idem (s : String) : pyStrip (pyStrip s) = pyStrip s := by
  unfold pyStrip
  simp [stripChars_idem]

/-! ### Dictionary lemmas -/

theorem pyDictGet_set_self {V : Type} (m : List (String × V)) (k : String) (v : V) :
    pyDictGet (pyDictSet m k v) k = some v := by
  induction m with
  | nil => simp [pyDictSet, pyDictGet]
  | cons p rest ih =>
    by_cases hp : p.1 = k
    · simp [pyDictSet, hp, pyDictGet]
    · simp only [pyDictSet, if_neg hp, pyDictGet]
      exact ih

theorem pyDictGet_set_other {V : Type} (m : List (String × V)) (k k' : String)
    (v : V) (h : k' ≠ k) : pyDictGet (pyDictSet m k v) k' = pyDictGet m k' := by
  induction m with
  | nil =>
    simp only [pyDictSet, pyDictGet]
    rw [if_neg (fun hh => h hh.symm)]
  | cons p rest ih =>
    by_cases hp : p.1 = k
    · simp only [pyDictSet, if_pos hp, pyDictGet]
      rw [if_neg (fun hh => h hh.symm), if_neg (fun hh => h (hp ▸ hh).symm)]
    · simp only [pyDictSet, if_neg hp, pyDictGet]
      by_cases hp' : p.1 = k'
      · rw [if_pos hp', if_pos hp']
      · rw [if_neg hp', if_neg hp']
        exact ih

theorem pyDictGet_set_isSome {V : Type} (m : List (String × V)) (k j : String)
    (v : V) (h : (pyDictGet m j).isSome) :
    (pyDictGet (pyDictSet m k v) j).isSome := by
  by_cases hj : j = k
  · subst hj; rw [pyDictGet_set_self]; rfl
  · rw [pyDictGet_set_other _ _ _ _ hj]; exact h

/-- The membership test `"card_number" in card_data` agrees with lookup. -/
theorem any_key_eq_isSome {V : Type} (m : List (String × V)) (k : String) :
    m.any (fun p => p.1 = k) = (pyDictGet m k).isSome := by
  induction m with
  | nil => rfl
  | cons p rest ih =>
    by_cases hp : p.1 = k <;> simp [pyDictGet, hp, ih]

/-! ### Key-footprint lemmas for `_parse_card_details` -/

theorem heart_field_update_get_other (key : String) (dd : Node) (cd : CardData)
    (j : String) (hj : j ≠ key) :
    pyDictGet (heart_field_update key dd cd) j = pyDictGet cd j := by
  simp only [heart_field_update]
  split
  · split
    · exact pyDictGet_set_other _ _ _ _ hj
    · rfl
  · exact pyDictGet_set_other _ _ _ _ hj

theorem heart_field_update_isSome (key : String) (dd : Node) (cd : CardData)
    (j : String) (h : (pyDictGet cd j).isSome) :
    (pyDictGet (heart_field_update key dd cd) j).isSome := by
  simp only [heart_field_update]
  split
  · split
    · exact pyDictGet_set_isSome _ _ _ _ h
    · exact h
  · exact pyDictGet_set_isSome _ _ _ _ h

theorem special_hearts_update_shape (key : String) (dd : Node) (cd cd' : CardData)
    (h : special_hearts_update key dd cd = .ok cd') :
    ∃ v, cd' = pyDictSet cd key v := by
  unfold special_hearts_update at h
  split at h
  · cases h; exact ⟨_, rfl⟩
  · split at h
    · exact Except.noConfusion h
    · split at h
      · exact Except.noConfusion h
      · cases h; exact ⟨_, rfl⟩

theorem process_dl_item_get_other (cd : CardData) (item : Node) (cd' : CardData)
    (h : process_dl_item cd item = .ok cd') (j : String)
    (hj : item_key item ≠ some j) :
    pyDictGet cd' j = pyDictGet cd j := by
  unfold process_dl_item at h
  unfold item_key at hj
  cases hdt : findTag "dt" item with
  | none => simp only [hdt] at h; cases h; rfl
  | some dt =>
    cases hdd : findTag "dd" item with
    | none => simp only [hdt, hdd] at h; cases h; rfl
    | some dd =>
      simp only [hdt, hdd] at h hj
      have hkey : translateKey (get_text_strip dt) ≠ j := fun e => hj (by rw [e])
      split at h
      · cases h; exact heart_field_update_get_other _ _ _ _ (fun e => hkey e.symm)
      · split at h
        · obtain ⟨v, rfl⟩ := special_hearts_update_shape _ _ _ _ h
          exact pyDictGet_set_other _ _ _ _ (fun e => hkey e.symm)
        · split at h
          · cases h; exact pyDictGet_set_other _ _ _ _ (fun e => hkey e.symm)
          · cases h; exact pyDictGet_set_other _ _ _ _ (fun e => hkey e.symm)

theorem process_dl_item_isSome (cd : CardData) (item : Node) (cd' : CardData)
    (h : process_dl_item cd item = .ok cd') (j : String)
    (hs : (pyDictGet cd j).isSome) : (pyDictGet cd' j).isSome := by
  unfold process_dl_item at h
  cases hdt : findTag "dt" item with
  | none => simp only [hdt] at h; cases h; exact hs
  | some dt =>
    cases hdd : findTag "dd" item with
    | none => simp only [hdt, hdd] at h; cases h; exact hs
    | some dd =>
      simp only [hdt, hdd] at h
      split at h
      · cases h; exact heart_field_update_isSome _ _ _ _ hs
      · split at h
        · obtain ⟨v, rfl⟩ := special_hearts_update_shape _ _ _ _ h
          exact pyDictGet_set_isSome _ _ _ _ hs
        · split at h
          · cases h; exact pyDictGet_set_isSome _ _ _ _ hs
          · cases h; exact pyDictGet_set_isSome _ _ _ _ hs

theorem process_dl_items_get_other (items : List Node) :
    ∀ cd cd', process_dl_items cd items = .ok cd' →
    ∀ j, (∀ item ∈ items, item_key item ≠ some j) →
    pyDictGet cd' j = pyDictGet cd j := by
  induction items with
  | nil => intro cd cd' h j _; cases h; rfl
  | cons item rest ih =>
    intro cd cd' h j hall
    unfold process_dl_items at h
    cases hi : process_dl_item cd item with
    | error e => rw [hi] at h; exact Except.noConfusion h
    | ok cd2 =>
      simp only [hi] at h
      rw [ih cd2 cd' h j (fun it hit => hall it (List.mem_cons_of_mem _ hit))]
      exact process_dl_item_get_other cd item cd2 hi j (hall item (List.mem_cons_self _ _))

theorem process_dl_items_isSome (items : List Node) :
    ∀ cd cd', process_dl_items cd items = .ok cd' →
    ∀ j, (pyDictGet cd j).isSome → (pyDictGet cd' j).isSome := by
  induction items with
  | nil => intro cd cd' h j hs; cases h; exact hs
  | cons item rest ih =>
    intro cd cd' h j hs
    unfold process_dl_items at h
    cases hi : process_dl_item cd item with
    | error e => rw [hi] at h; exact Except.noConfusion h
    | ok cd2 =>
      simp only [hi] at h
      exact ih cd2 cd' h j (process_dl_item_isSome cd item cd2 hi j hs)

theorem details_img_step_get_other (container : Node) (cd : CardData) (j : String)
    (hj : j ≠ "img_url") :
    pyDictGet (details_img_step container cd) j = pyDictGet cd j := by
  unfold details_img_step
  split
  · split
    · exact pyDictGet_set_other _ _ _ _ hj
    · rfl
  · rfl

theorem details_img_step_isSome (container : Node) (cd : CardData) (j : String)
    (h : (pyDictGet cd j).isSome) :
    (pyDictGet (details_img_step container cd) j).isSome := by
  unfold details_img_step
  split
  · split
    · exact pyDictGet_set_isSome _ _ _ _ h
    · exact h
  · exact h

theorem details_name_step_get_other (container : Node) (cd : CardData) (j : String)
    (hj : j ≠ "name") :
    pyDictGet (details_name_step container cd) j = pyDictGet cd j := by
  unfold details_name_step
  split
  · exact pyDictGet_set_other _ _ _ _ hj
  · rfl

theorem details_name_step_isSome (container : Node) (cd : CardData) (j : String)
    (h : (pyDictGet cd j).isSome) :
    (pyDictGet (details_name_step container cd) j).isSome := by
  unfold details_name_step
  split
  · exact pyDictGet_set_isSome _ _ _ _ h
  · exact h

theorem details_text_step_get_other (container : Node) (cd : CardData) (j : String)
    (hj : j ≠ "info_text") :
    pyDictGet (details_text_step container cd) j = pyDictGet cd j := by
  unfold details_text_step
  split
  · exact pyDictGet_set_other _ _ _ _ hj
  · rfl

theorem details_text_step_isSome (container : Node) (cd : CardData) (j : String)
    (h : (pyDictGet cd j).isSome) :
    (pyDictGet (details_text_step container cd) j).isSome := by
  unfold details_text_step
  split
  · exact pyDictGet_set_isSome _ _ _ _ h
  · exact h

theorem details_dl_step_get_other (container : Node) (cd cd' : CardData) (j : String)
    (h : details_dl_step container cd = .ok cd')
    (hall : ∀ item ∈ container_dl_items container, item_key item ≠ some j) :
    pyDictGet cd' j = pyDictGet cd j := by
  unfold details_dl_step at h
  unfold container_dl_items at hall
  cases hd : selectOneClassIn "info-Detail" container with
  | none => rw [hd] at h; cases h; rfl
  | some info_detail =>
    simp only [hd] at h hall
    exact process_dl_items_get_other _ _ _ h j hall

theorem details_dl_step_isSome (container : Node) (cd cd' : CardData) (j : String)
    (h : details_dl_step container cd = .ok cd')
    (hs : (pyDictGet cd j).isSome) : (pyDictGet cd' j).isSome := by
  unfold details_dl_step at h
  cases hd : selectOneClassIn "info-Detail" container with
  | none => rw [hd] at h; cases h; exact hs
  | some info_detail =>
    simp only [hd] at h
    exact process_dl_items_isSome _ _ _ h j hs

theorem details_final_step_of_present (card_number : String) (cd : CardData)
    (h : (pyDictGet cd "card_number").isSome) :
    details_final_step card_number cd = cd := by
  unfold details_final_step
  rw [any_key_eq_isSome, h]
  rfl

theorem details_final_step_isSome (card_number : String) (cd : CardData) :
    (pyDictGet (details_final_step card_number cd) "card_number").isSome := by
  unfold details_final_step
  rw [any_key_eq_isSome]
  cases hg : (pyDictGet cd "card_number").isSome
  · simp only [Bool.false_eq_true, if_false]
    rw [pyDictGet_set_self]
    rfl
  · simp only [if_true]
    exact hg

/-! ### Lemmas about the heart-mapping loop -/

theorem heart_values_loop_cons (s : Node) (rest : List Node)
    (values : List (String × String)) :
    heart_values_loop (s :: rest) values =
      match firstHeartClass s with
      | none => heart_values_loop rest values
      | some class_name =>
        heart_values_loop rest (pyDictSet values class_name
          (if get_text_strip s = "" then "1" else get_text_strip s)) := rfl

theorem heart_values_loop_append (xs ys : List Node) :
    ∀ values, heart_values_loop (xs ++ ys) values =
      heart_values_loop ys (heart_values_loop xs values) := by
  induction xs with
  | nil => intro values; rfl
  | cons s rest ih =>
    intro values
    rw [List.cons_append, heart_values_loop_cons, heart_values_loop_cons]
    cases firstHeartClass s with
    | none => exact ih _
    | some class_name => exact ih _

theorem heart_values_loop_untouched (ts : List Node) (c : String)
    (h : ∀ t ∈ ts, firstHeartClass t ≠ some c) :
    ∀ values, pyDictGet (heart_values_loop ts values) c = pyDictGet values c := by
  induction ts with
  | nil => intro values; rfl
  | cons t rest ih =>
    intro values
    rw [heart_values_loop_cons]
    cases hcl : firstHeartClass t with
    | none => exact ih (fun x hx => h x (List.mem_cons_of_mem _ hx)) values
    | some class_name =>
      rw [ih (fun x hx => h x (List.mem_cons_of_mem _ hx)) _]
      apply pyDictGet_set_other
      intro e
      exact h t (List.mem_cons_self _ _) (by rw [hcl, e])

/-! ### Lemmas about the pagination loop -/

theorem paginate_step_content (fetch : Nat → FetchOutcome) (fuel page : Nat)
    (acc : List String) (reqs : List Nat) (body : List Node)
    (hf : fetch page = .response 200 body)
    (hne : body.isEmpty = false)
    (hnums : (parse_card_numbers_from_html body).isEmpty = false) :
    paginate fetch (fuel + 1) page acc reqs =
      paginate fetch fuel (page + 1)
        (acc ++ parse_card_numbers_from_html body) (page :: reqs) := by
  have hfsr : fetch_search_results_page (fetch page) = .ok (some body) := by
    rw [hf]; rfl
  simp only [paginate, hfsr, hne, hnums]
  simp

theorem paginate_step_end (fetch : Nat → FetchOutcome) (fuel page : Nat)
    (acc : List String) (reqs : List Nat)
    (hf : fetch_search_results_page (fetch page) = .ok none) :
    paginate fetch (fuel + 1) page acc reqs = .ok ⟨acc, (page :: reqs).reverse⟩ := by
  simp only [paginate, hf]

theorem search_results_page_isEmpty (ids : List String) :
    (search_results_page ids).isEmpty = ids.isEmpty := by
  cases ids <;> rfl

theorem descendantsL_search_results_page (ids : List String) :
    descendantsL (search_results_page ids) = search_results_page ids := by
  induction ids with
  | nil => rfl
  | cons i rest ih =>
    simp only [search_results_page, List.map_cons] at ih ⊢
    rw [descendantsL]
    rw [ih]
    rfl

theorem parse_search_results_page (ids : List String)
    (h : ∀ s ∈ ids, pyStrip s = s ∧ s ≠ "") :
    parse_card_numbers_from_html (search_results_page ids) = ids := by
  simp only [parse_card_numbers_from_html]
  rw [descendantsL_search_results_page]
  induction ids with
  | nil => rfl
  | cons i rest ih =>
    obtain ⟨hi1, hi2⟩ := h i (List.mem_cons_self _ _)
    have ih' := ih (fun s hs => h s (List.mem_cons_of_mem _ hs))
    simp only [search_results_page, List.map_cons] at ih' ⊢
    rw [List.filter_cons_of_pos (by rfl), List.filterMap_cons]
    have hattr : (getAttr (Node.tag "div" [("card", i)]
        ["ex-item", "cardlist-Result_Item", "image-Item"] []) "card").getD "" = i := rfl
    simp only [hattr, hi1]
    rw [if_pos hi2, ih']

/-- A run of the pagination loop against an oracle whose pages below `n` all
succeed with a non-empty, parsable body and whose page-`n` request makes
`_fetch_search_results_page` return `None`: the loop visits pages
`page, …, n`, accumulates the parses of pages `page, …, n-1` in order, and
issues no request past page `n`. -/
theorem paginate_full_run (bodies : Nat → List Node) (n : Nat) (stop : FetchOutcome)
    (hbody : ∀ p, 1 ≤ p → p < n → (bodies p).isEmpty = false)
    (hparse : ∀ p, 1 ≤ p → p < n →
      (parse_card_numbers_from_html (bodies p)).isEmpty = false)
    (hstop : fetch_search_results_page stop = .ok none) :
    ∀ fuel page acc reqs, 1 ≤ page → page ≤ n → n - page < fuel →
      paginate (fun p => if p < n then .response 200 (bodies p) else stop)
          fuel page acc reqs =
        .ok ⟨acc ++ (List.range' page (n - page)).flatMap
              (fun p => parse_card_numbers_from_html (bodies p)),
             reqs.reverse ++ List.range' page (n - page + 1)⟩ := by
  intro fuel
  induction fuel with
  | zero =>
    intro page acc reqs h1 h2 h3
    exact absurd h3 (Nat.not_lt_zero _)
  | succ f ih =>
    intro page acc reqs h1 h2 h3
    by_cases hpn : page = n
    · subst hpn
      rw [paginate_step_end _ _ _ _ _ (by rw [if_neg (by omega)]; exact hstop)]
      simp [Nat.sub_self]
    · have hlt : page < n := by omega
      rw [paginate_step_content _ f page acc reqs (bodies page)
            (by rw [if_pos hlt]) (hbody page h1 hlt) (hparse page h1 hlt)]
      rw [ih (page + 1) _ _ (by omega) (by omega) (by omega)]
      have hr : n - page = (n - (page + 1)) + 1 := by omega
      rw [hr]
      simp only [List.range'_succ, List.flatMap_cons, List.reverse_cons,
        List.append_assoc, List.singleton_append]

/-! ## Claims -/

/-- C1, counterexample: on a detail page whose attribute list contains a
card-number row with value `LL-doc-777`, `_parse_card_details` called with
the identifier `LL-pass-001` returns a record whose `card_number` is the
document's value, not the identifier passed in — the claimed invariant
fails when the document contains a card-number entry with a different
value. -/
theorem c1_counterexample :
    parse_card_details c1CexDoc "LL-pass-001" =
      .ok (some [("card_number", FieldValue.str "LL-doc-777")]) ∧
    ("LL-doc-777" : String) ≠ "LL-pass-001" :=
  ⟨rfl, by decide⟩

/-- C1, amended: whenever `_parse_card_details` returns a record, the key
`card_number` is present; and when no attribute row of the document
translates to the key `card_number`, its value is exactly the identifier
passed in. (A card-number attribute row in the document overwrites the
field with the document's own value.) -/
theorem c1_card_number_amended (doc : List Node) (cn : String) (cd : CardData)
    (h : parse_card_details doc cn = .ok (some cd)) :
    (lookupCD cd "card_number").isSome ∧
    ((∀ item ∈ dl_items_of doc, item_key item ≠ some "card_number") →
      lookupCD cd "card_number" = some (.str cn)) := by
  unfold parse_card_details at h
  cases hc : select_one_class "cardlist-Info" doc with
  | none => rw [hc] at h; simp at h
  | some container =>
    simp only [hc] at h
    cases hdl : details_dl_step container (details_name_step container
        (details_img_step container [("card_number", FieldValue.str cn)])) with
    | error e => rw [hdl] at h; exact Except.noConfusion h
    | ok cd3 =>
      simp only [hdl] at h
      have hcd : cd = details_final_step cn (details_text_step container cd3) := by
        injection h with h1
        injection h1 with h2
        exact h2.symm
      subst hcd
      constructor
      · exact details_final_step_isSome cn _
      · intro hall
        have hall' : ∀ item ∈ container_dl_items container,
            item_key item ≠ some "card_number" := by
          unfold dl_items_of at hall
          rw [hc] at hall
          exact hall
        have g2 : pyDictGet (details_name_step container (details_img_step container
            [("card_number", FieldValue.str cn)])) "card_number" =
            some (.str cn) := by
          rw [details_name_step_get_other _ _ _ (by decide),
            details_img_step_get_other _ _ _ (by decide)]
          rfl
        have g3 : pyDictGet cd3 "card_number" = some (.str cn) := by
          rw [details_dl_step_get_other container _ cd3 "card_number" hdl hall']
          exact g2
        have g4 : pyDictGet (details_text_step container cd3) "card_number" =
            some (.str cn) := by
          rw [details_text_step_get_other _ _ _ (by decide)]
          exact g3
        have g5 : details_final_step cn (details_text_step container cd3) =
            details_text_step container cd3 :=
          details_final_step_of_present _ _ (by rw [g4]; rfl)
        unfold lookupCD
        rw [g5]
        exact g4

/-- C1, witness: on a detail page with only a set-label row, the returned
record's `card_number` equals the identifier passed in. -/
theorem c1_card_number_amended_witness :
    lookupCD [("card_number", FieldValue.str "LL-w1-001"),
      ("set", FieldValue.str "スタートデッキ")] "card_number" =
      some (FieldValue.str "LL-w1-001") :=
  (c1_card_number_amended c1WitnessDoc "LL-w1-001"
    [("card_number", FieldValue.str "LL-w1-001"),
     ("set", FieldValue.str "スタートデッキ")] rfl).2 (by decide)

/-- C2, counterexample: an HTTP 500 response makes both fetch helpers raise
`httpx.HTTPStatusError` to the caller (`raise_for_status` is outside the
`except httpx.RequestError` net), rather than log and return `None` as the
claim states. -/
theorem c2_counterexample :
    fetch_search_results_page (.response 500 []) =
      .error (.httpStatusError 500) ∧
    fetch_card_details_page (.response 500 []) =
      .error (.httpStatusError 500) :=
  ⟨rfl, rfl⟩

/-- C2, amended: transport-level `httpx.RequestError`s are caught, logged
and turned into `None` by both fetch helpers, and the search fetch turns
404 into `None`; but any other non-success HTTP status makes
`raise_for_status` raise `httpx.HTTPStatusError` out of both helpers (the
detail fetch raises even on 404). -/
theorem c2_fetch_error_handling (status : Nat) (body : List Node)
    (hs : isSuccessStatus status = false) (h404 : status ≠ 404) :
    fetch_search_results_page (.response status body) =
      .error (.httpStatusError status) ∧
    fetch_card_details_page (.response status body) =
      .error (.httpStatusError status) ∧
    fetch_search_results_page .requestError = .ok none ∧
    fetch_card_details_page .requestError = .ok none ∧
    fetch_search_results_page (.response 404 body) = .ok none ∧
    fetch_card_details_page (.response 404 body) =
      .error (.httpStatusError 404) := by
  refine ⟨?_, ?_, rfl, rfl, by simp [fetch_search_results_page], rfl⟩
  · simp [fetch_search_results_page, hs, h404]
  · simp [fetch_card_details_page, hs]

/-- C2, witness: the amended behavior at the concrete status 500. -/
theorem c2_fetch_error_handling_witness :
    fetch_search_results_page (.response 500 []) =
      .error (.httpStatusError 500) ∧
    fetch_card_details_page (.response 500 []) =
      .error (.httpStatusError 500) ∧
    fetch_search_results_page .requestError = .ok none ∧
    fetch_card_details_page .requestError = .ok none ∧
    fetch_search_results_page (.response 404 []) = .ok none ∧
    fetch_card_details_page (.response 404 []) =
      .error (.httpStatusError 404) :=
  c2_fetch_error_handling 500 [] rfl (by decide)

/-- C3, counterexample: a detail page whose `required_hearts` definition has
no span sub-elements but does contain an `ALL1` icon parses to a record with
no `required_hearts` field at all — the `{"ALL1": "1"}` special case is not
applied to `required_hearts` (nor to `hearts`), contrary to the claim. -/
theorem c3_counterexample :
    find_all_tag "span" c3Dd = [] ∧
    (findTagWithAttr "img" "alt" "ALL1" c3Dd).isSome = true ∧
    parse_card_details c3Doc "LL-c3-001" =
      .ok (some [("card_number", FieldValue.str "LL-c3-001")]) ∧
    ((parse_card_details c3Doc "LL-c3-001").toOption.join.bind
      (fun r => lookupCD r "required_hearts")) = none :=
  ⟨rfl, rfl, rfl, rfl⟩

/-- C3, amended: when a heart-type definition element has no span
sub-elements but an `ALL1` icon is present, only the key `blade_hearts` is
set to `{"ALL1": "1"}`; for `hearts` and `required_hearts` the record is
left unchanged (the field stays absent). -/
theorem c3_all1_only_blade_hearts (dd : Node) (cd : CardData)
    (hspans : find_all_tag "span" dd = [])
    (himg : (findTagWithAttr "img" "alt" "ALL1" dd).isSome) :
    heart_field_update "blade_hearts" dd cd =
      pyDictSet cd "blade_hearts" (.dict [("ALL1", "1")]) ∧
    heart_field_update "hearts" dd cd = cd ∧
    heart_field_update "required_hearts" dd cd = cd := by
  refine ⟨?_, ?_, ?_⟩ <;>
    simp [heart_field_update, hspans, himg]

/-- C3, witness: the amended behavior on the concrete ALL-hearts definition
element. -/
theorem c3_all1_only_blade_hearts_witness :
    heart_field_update "blade_hearts" c3Dd [] =
      [("blade_hearts", FieldValue.dict [("ALL1", "1")])] ∧
    heart_field_update "hearts" c3Dd [] = [] ∧
    heart_field_update "required_hearts" c3Dd [] = [] :=
  c3_all1_only_blade_hearts c3Dd [] rfl rfl

/-- C4: on a detail page that has the main info container but whose
`special_hearts` definition has whitespace-only text and no icon element,
`_parse_card_details` raises `TypeError` (`dd.find("img")` is `None` and is
subscripted) instead of returning a record — the safety property claimed by
the specification does not hold on this input. -/
theorem c4_special_hearts_crash :
    parse_card_details c4Doc "LL-c4-001" = .error PyError.typeError :=
  rfl

/-- C5: against a search oracle answering 20 identifiers on page 1, 5 on
page 2 and HTTP 404 on page 3, `get_card_numbers_from_expansion` returns
exactly the 25 identifiers in page order, and the requested pages are
exactly 1, 2, 3 — no page-4 request is issued. -/
theorem c5_pagination_termination (ids1 ids2 : List String) (fuel : Nat)
    (h1 : ids1.length = 20) (h2 : ids2.length = 5)
    (hok : ∀ s ∈ ids1 ++ ids2, pyStrip s = s ∧ s ≠ "")
    (hfuel : 3 ≤ fuel) :
    get_card_numbers_from_expansion (c5_fetch ids1 ids2) fuel =
      .ok ⟨ids1 ++ ids2, [1, 2, 3]⟩ := by
  obtain ⟨k, rfl⟩ : ∃ k, fuel = k + 3 := ⟨fuel - 3, by omega⟩
  have hp1 : parse_card_numbers_from_html (search_results_page ids1) = ids1 :=
    parse_search_results_page _ (fun s hs => hok s (List.mem_append_left _ hs))
  have hp2 : parse_card_numbers_from_html (search_results_page ids2) = ids2 :=
    parse_search_results_page _ (fun s hs => hok s (List.mem_append_right _ hs))
  have hne1 : ids1.isEmpty = false := by
    cases ids1
    · simp at h1
    · rfl
  have hne2 : ids2.isEmpty = false := by
    cases ids2
    · simp at h2
    · rfl
  unfold get_card_numbers_from_expansion
  rw [show k + 3 = (k + 2) + 1 from rfl,
    paginate_step_content _ _ 1 [] [] (search_results_page ids1) rfl
      (by rw [search_results_page_isEmpty]; exact hne1)
      (by rw [hp1]; exact hne1)]
  rw [hp1]
  rw [show k + 2 = (k + 1) + 1 from rfl,
    paginate_step_content _ _ 2 _ _ (search_results_page ids2) rfl
      (by rw [search_results_page_isEmpty]; exact hne2)
      (by rw [hp2]; exact hne2)]
  rw [hp2]
  rw [paginate_step_end (c5_fetch ids1 ids2) k 3 _ _ (by rfl)]
  simp

/-- C5, witness: the pagination scenario at concrete identifiers. -/
theorem c5_pagination_termination_witness :
    get_card_numbers_from_expansion (c5_fetch c5Ids1 c5Ids2) 10 =
      .ok ⟨c5Ids1 ++ c5Ids2, [1, 2, 3]⟩ :=
  c5_pagination_termination c5Ids1 c5Ids2 10 rfl rfl (by decide) (by omega)

/-- C6: a heart-category span with empty stripped text is recorded with the
value `"1"` in the resulting heart mapping (stated for the last span of its
category key, since a later span of the same key would overwrite the entry),
and a non-empty span list is exactly what `heart_field_update` stores under
the dispatched key. -/
theorem c6_empty_heart_span (pre post : List Node) (s : Node) (c : String)
    (hclass : firstHeartClass s = some c)
    (htext : get_text_strip s = "")
    (hlater : ∀ t ∈ post, firstHeartClass t ≠ some c) :
    pyDictGet (heart_values_loop (pre ++ s :: post) []) c = some "1" ∧
    ∀ key (dd : Node) (cd : CardData),
      find_all_tag "span" dd = pre ++ s :: post →
      lookupCD (heart_field_update key dd cd) key =
        some (.dict (heart_values_loop (pre ++ s :: post) [])) := by
  constructor
  · rw [heart_values_loop_append, heart_values_loop_cons, hclass, htext]
    rw [heart_values_loop_untouched post c hlater]
    simp [pyDictGet_set_self]
  · intro key dd cd hspans
    have hne : (pre ++ s :: post).isEmpty = false := by
      cases pre <;> rfl
    simp only [heart_field_update, hspans, hne]
    unfold lookupCD
    simp [pyDictGet_set_self]

/-- C6, witness: a single heart span with empty text yields the mapping
entry `("heart01", "1")`, and the field is stored by `heart_field_update`. -/
theorem c6_empty_heart_span_witness :
    pyDictGet (heart_values_loop [c6Span] []) "heart01" = some "1" ∧
    lookupCD (heart_field_update "hearts"
        (Node.tag "dd" [] [] [c6Span]) []) "hearts" =
      some (FieldValue.dict (heart_values_loop [c6Span] [])) := by
  have h := c6_empty_heart_span [] [] c6Span "heart01" rfl rfl
    (fun t ht => absurd ht (List.not_mem_nil t))
  exact ⟨h.1, h.2 "hearts" (Node.tag "dd" [] [] [c6Span]) [] rfl⟩

/-- C7: when a `special_hearts` definition has empty stripped text but its
first icon carries a (non-empty) alternate text, the stored value is that
alternate text with its final character removed (`alt[:-1]`). -/
theorem c7_special_hearts_icon_fallback (key : String) (dd img : Node)
    (alt : String) (cd : CardData)
    (htext : pyStrip (nodeText dd) = "")
    (himg : findTag "img" dd = some img)
    (halt : getAttr img "alt" = some alt)
    (hne : alt ≠ "") :
    special_hearts_update key dd cd =
      .ok (pyDictSet cd key (.str (alt.dropRight 1))) := by
  unfold special_hearts_update
  rw [if_neg (by simp [htext])]
  simp only [himg, halt]

/-- C7, witness: the icon label `ドロー1` with empty definition text yields
the value `ドロー`. -/
theorem c7_special_hearts_icon_fallback_witness :
    special_hearts_update "special_hearts" c7Dd [] =
      .ok [("special_hearts", FieldValue.str "ドロー")] :=
  c7_special_hearts_icon_fallback "special_hearts" c7Dd
    (.tag "img" [("alt", "ドロー1")] [] []) "ドロー1" [] rfl rfl rfl (by decide)

/-- C8: every string `parse_info_text` returns is non-empty and still
non-empty after stripping — the normalizer never emits an empty or
whitespace-only line. -/
theorem c8_no_blank_lines (info_text_tag : Node) (s : String)
    (h : s ∈ parse_info_text info_text_tag) : s ≠ "" ∧ pyStrip s ≠ "" := by
  simp only [parse_info_text] at h
  rw [List.mem_filter] at h
  obtain ⟨hmem, hne⟩ := h
  rw [List.mem_map] at hmem
  obtain ⟨l, _, rfl⟩ := hmem
  refine ⟨by simpa using hne, ?_⟩
  rw [pyStrip_idem]
  simpa using hne

/-- C8, witness: both lines produced from the concrete ability-text block
are non-blank. -/
theorem c8_no_blank_lines_witness :
    ("ability line one" ≠ "" ∧ pyStrip "ability line one" ≠ "") ∧
    ("icon rest" ≠ "" ∧ pyStrip "icon rest" ≠ "") :=
  ⟨c8_no_blank_lines c8Tag "ability line one" (by decide),
   c8_no_blank_lines c8Tag "icon rest" (by decide)⟩

/-- C9: merging `{"B": [c2]}` into an existing `{"A": [c1]}` keeps the prior
key and adds the new one; the overwrite directive keeps only the new data;
and a non-mapping or unparsable prior file under the merge directive results
in a full overwrite with the newly scraped data. -/
theorem c9_merge_semantics {V : Type} (c1 c2 : V)
    (newly : List (String × V)) :
    final_data_map "merge" (.dict [("A", c1)]) [("B", c2)] =
      [("A", c1), ("B", c2)] ∧
    final_data_map "overwrite" (.dict [("A", c1)]) [("B", c2)] = [("B", c2)] ∧
    final_data_map "merge" (.nonDict) newly = newly ∧
    final_data_map "merge" (.unparsable) newly = newly :=
  ⟨rfl, rfl, rfl, rfl⟩

/-- C9, witness: the merge and overwrite semantics at concrete values. -/
theorem c9_merge_semantics_witness :
    final_data_map "merge" (.dict [("A", ["LL-a-001"])]) [("B", ["LL-b-001"])] =
      [("A", ["LL-a-001"]), ("B", ["LL-b-001"])] ∧
    final_data_map "overwrite" (.dict [("A", ["LL-a-001"])])
      [("B", ["LL-b-001"])] = [("B", ["LL-b-001"])] ∧
    final_data_map "merge" (.nonDict) [("B", ["LL-b-001"])] =
      [("B", ["LL-b-001"])] ∧
    final_data_map "merge" (.unparsable) [("B", ["LL-b-001"])] =
      [("B", ["LL-b-001"])] :=
  c9_merge_semantics ["LL-a-001"] ["LL-b-001"] [("B", ["LL-b-001"])]

/-- C10: when pages 1 through n-1 of an expansion search succeed and the
page-n request (n ≥ 2) fails with a transport-level `httpx.RequestError`,
`get_card_numbers_from_expansion` returns the identifiers accumulated from
pages 1 through n-1 as a plain list (requesting exactly pages 1..n), and
that result is identical to the one produced when page n instead answers
HTTP 404 — the caller cannot distinguish the truncated run from a complete
pagination. -/
theorem c10_transport_error_truncation (bodies : Nat → List Node) (n fuel : Nat)
    (hn : 2 ≤ n) (hfuel : n ≤ fuel)
    (hbody : ∀ p, 1 ≤ p → p < n → (bodies p).isEmpty = false)
    (hparse : ∀ p, 1 ≤ p → p < n →
      (parse_card_numbers_from_html (bodies p)).isEmpty = false) :
    get_card_numbers_from_expansion (fetch_transport_error_at bodies n) fuel =
      .ok ⟨(List.range' 1 (n - 1)).flatMap
            (fun p => parse_card_numbers_from_html (bodies p)),
           List.range' 1 n⟩ ∧
    get_card_numbers_from_expansion (fetch_transport_error_at bodies n) fuel =
      get_card_numbers_from_expansion (fetch_end_404_at bodies n) fuel := by
  have hrunE := paginate_full_run bodies n .requestError hbody hparse rfl
    fuel 1 [] [] (by omega) (by omega) (by omega)
  have hrun4 := paginate_full_run bodies n (.response 404 []) hbody hparse rfl
    fuel 1 [] [] (by omega) (by omega) (by omega)
  have hsub : n - 1 + 1 = n := by omega
  constructor
  · unfold get_card_numbers_from_expansion fetch_transport_error_at
    rw [hrunE, hsub]
    simp
  · unfold get_card_numbers_from_expansion fetch_transport_error_at
      fetch_end_404_at
    rw [hrunE, hrun4]

/-- C10, witness: a two-good-page run truncated by a transport error at
page 3 equals the 404-terminated run. -/
theorem c10_transport_error_truncation_witness :
    get_card_numbers_from_expansion
        (fetch_transport_error_at
          (fun _ => search_results_page ["LL-x-001"]) 3) 5 =
      .ok ⟨["LL-x-001", "LL-x-001"], [1, 2, 3]⟩ ∧
    get_card_numbers_from_expansion
        (fetch_transport_error_at
          (fun _ => search_results_page ["LL-x-001"]) 3) 5 =
      get_card_numbers_from_expansion
        (fetch_end_404_at (fun _ => search_results_page ["LL-x-001"]) 3) 5 := by
  have h := c10_transport_error_truncation
    (fun _ => search_results_page ["LL-x-001"]) 3 5 (by omega) (by omega)
    (fun p h1 h2 => rfl) (fun p h1 h2 => rfl)
  exact ⟨h.1.trans (by rfl), h.2⟩

end LLTCG
